import Mathlib

/-!
Shallow embedding of the `awssecret` Go package: a thin adapter over AWS
Secrets Manager. The package fetches a named secret string and optionally
decodes it as JSON into one of three shapes (`Credential`, `APICredential`,
or a Postgres DSN string). The embedding models:

* Go errors as the inductive `GoError` (with `errors.Wrapf` as `.wrapped`,
  `awserr.Error` values as `.awsErr`, and the `encoding/json` errors as
  `.jsonSyntaxErr` / `.jsonTypeErr`);
* the outside world (default-session construction and the single
  `GetSecretValue` backend call) as an `Env` record;
* `strings.Index` as `stringsIndex` (first index of a substring, `-1` when
  absent);
* `encoding/json.Unmarshal` into the three record types as a concrete JSON
  parser (`Json.parse`) followed by a field-by-field fold that ignores
  unknown keys, skips `null`, and fails on a type mismatch.

Functions keep the source's names: `GetStringSecret`, `GetCredentialSecret`,
`GetAPICredentialSecret`, `GetPostgresDSNSecret`.
-/

namespace AwsSecret

/-- Go error values as this package observes them: a recognized
`awserr.Error` carrying a code, a plain `errors.New` message, the two
`encoding/json` failure kinds, and `errors.Wrapf` wrapping. -/
inductive GoError where
  | awsErr (code : String) (msg : String)
  | plain (msg : String)
  | jsonSyntaxErr
  | jsonTypeErr (target : String)
  | wrapped (context : String) (cause : GoError)
deriving Repr, DecidableEq

/-- The ambient world of one call: the outcome of default session
construction (`session.NewSessionWithOptions`), and the outcome of the one
`GetSecretValue` backend call. `Except.ok none` models a secret whose
`SecretString` field is nil (a binary secret). -/
structure Env where
  newSessionResult : Except GoError Unit
  getSecretValueResult : Except GoError (Option String)

/-- GetStringSecret from the source: constructs a default session if none
was passed in (failure returned as-is), issues one GetSecretValue call,
wraps a recognized `awserr.Error` with its code, wraps any other error with
the generic message (typo preserved from the source), returns the string
value when present, and errors on a non-string secret. -/
def GetStringSecret (sessProvided : Bool) (env : Env) : String × Option GoError :=
  match (if sessProvided then Except.ok () else env.newSessionResult) with
  | .error e => ("", some e)
  | .ok _ =>
    match env.getSecretValueResult with
    | .error e =>
      match e with
      | .awsErr code _ =>
        ("", some (.wrapped ("Failed to get secret from AWS Secrets Manager: " ++ code) e))
      | _ =>
        ("", some (.wrapped "Fasiled to get secret from AWS Secrets Manager: Unknown error description" e))
    | .ok (some str) => (str, none)
    | .ok none => ("", some (.plain "Secret is not a string"))

/-- Worker for `stringsIndex`: the first position at or after offset `i`
where `sub` occurs in `l`, or `-1`. -/
def firstIndexFrom : List Char → List Char → Nat → Int
  | [], sub, i => if sub.isPrefixOf [] then (i : Int) else -1
  | c :: t, sub, i => if sub.isPrefixOf (c :: t) then (i : Int) else firstIndexFrom t sub (i + 1)

/-- Go's `strings.Index`: index of the first occurrence of `sub` in `s`,
`-1` when `sub` is not a substring of `s`. -/
def stringsIndex (s sub : String) : Int :=
  firstIndexFrom s.toList sub.toList 0

/-- The pass-through check of GetPostgresDSNSecret:
`strings.Index(str, "host=") >= 0 && strings.Index(str, "dbname=") >= 0`. -/
def dsnPassThrough (str : String) : Bool :=
  decide (stringsIndex str "host=" ≥ 0) && decide (stringsIndex str "dbname=" ≥ 0)

/-- The JSON values produced by the parser (numbers restricted to the
integers: every numeric field of this package is a Go `int`). -/
inductive Json where
  | null
  | bool (b : Bool)
  | num (n : Int)
  | str (s : String)
  | arr (elems : List Json)
  | obj (fields : List (String × Json))
deriving Repr

/-- JSON whitespace. -/
def isJsonWs (c : Char) : Bool :=
  c == ' ' || c == '\t' || c == '\n' || c == '\r'

/-- Drop leading JSON whitespace. -/
def skipWs : List Char → List Char
  | [] => []
  | c :: t => if isJsonWs c then skipWs t else c :: t

/-- Value of a hex digit, if `c` is one. -/
def hexVal (c : Char) : Option Nat :=
  if '0' ≤ c && c ≤ '9' then some (c.toNat - 48)
  else if 'a' ≤ c && c ≤ 'f' then some (c.toNat - 87)
  else if 'A' ≤ c && c ≤ 'F' then some (c.toNat - 70)
  else none

/-- Parse the body of a JSON string literal (the opening quote already
consumed): the decoded characters and the remaining input. -/
def parseStringChars : List Char → Option (List Char × List Char)
  | [] => none
  | '"' :: rest => some ([], rest)
  | '\\' :: e :: rest =>
    match e with
    | '"' => (parseStringChars rest).map (fun p => ('"' :: p.1, p.2))
    | '\\' => (parseStringChars rest).map (fun p => ('\\' :: p.1, p.2))
    | '/' => (parseStringChars rest).map (fun p => ('/' :: p.1, p.2))
    | 'n' => (parseStringChars rest).map (fun p => ('\n' :: p.1, p.2))
    | 't' => (parseStringChars rest).map (fun p => ('\t' :: p.1, p.2))
    | 'r' => (parseStringChars rest).map (fun p => ('\r' :: p.1, p.2))
    | 'b' => (parseStringChars rest).map (fun p => ('\x08' :: p.1, p.2))
    | 'f' => (parseStringChars rest).map (fun p => ('\x0c' :: p.1, p.2))
    | 'u' =>
      match rest with
      | h1 :: h2 :: h3 :: h4 :: rest2 =>
        match hexVal h1, hexVal h2, hexVal h3, hexVal h4 with
        | some x1, some x2, some x3, some x4 =>
          (parseStringChars rest2).map
            (fun p => (Char.ofNat (((x1 * 16 + x2) * 16 + x3) * 16 + x4) :: p.1, p.2))
        | _, _, _, _ => none
      | _ => none
    | _ => none
  | '\\' :: [] => none
  | c :: rest => (parseStringChars rest).map (fun p => (c :: p.1, p.2))

/-- Take the leading run of decimal digits. -/
def takeDigits : List Char → List Char × List Char
  | [] => ([], [])
  | c :: t =>
    if c.isDigit then
      let p := takeDigits t
      (c :: p.1, p.2)
    else ([], c :: t)

/-- Numeric value of a digit run. -/
def digitsVal (ds : List Char) : Nat :=
  ds.foldl (fun acc c => acc * 10 + (c.toNat - 48)) 0

/-- Parse an integer JSON number (optional minus sign, then digits). -/
def parseNum : List Char → Option (Json × List Char)
  | '-' :: t =>
    let p := takeDigits t
    if p.1.isEmpty then none else some (.num (-(digitsVal p.1 : Int)), p.2)
  | l =>
    let p := takeDigits l
    if p.1.isEmpty then none else some (.num (digitsVal p.1 : Int), p.2)

mutual

/-- Parse one JSON value; `fuel` bounds the nesting and list recursion. -/
def parseValue : Nat → List Char → Option (Json × List Char)
  | 0, _ => none
  | fuel + 1, cs =>
    match skipWs cs with
    | 'n' :: 'u' :: 'l' :: 'l' :: rest => some (.null, rest)
    | 't' :: 'r' :: 'u' :: 'e' :: rest => some (.bool true, rest)
    | 'f' :: 'a' :: 'l' :: 's' :: 'e' :: rest => some (.bool false, rest)
    | '"' :: rest => (parseStringChars rest).map (fun p => (.str (String.mk p.1), p.2))
    | '[' :: rest =>
      match skipWs rest with
      | ']' :: r2 => some (.arr [], r2)
      | r2 => (parseElems fuel r2).map (fun p => (.arr p.1, p.2))
    | '{' :: rest =>
      match skipWs rest with
      | '}' :: r2 => some (.obj [], r2)
      | r2 => (parseMembers fuel r2).map (fun p => (.obj p.1, p.2))
    | cs2 => parseNum cs2

/-- Parse the comma-separated elements of a non-empty JSON array, through
the closing bracket. -/
def parseElems : Nat → List Char → Option (List Json × List Char)
  | 0, _ => none
  | fuel + 1, cs =>
    match parseValue fuel cs with
    | none => none
    | some (v, r1) =>
      match skipWs r1 with
      | ',' :: r2 => (parseElems fuel r2).map (fun p => (v :: p.1, p.2))
      | ']' :: r2 => some ([v], r2)
      | _ => none

/-- Parse the members of a non-empty JSON object, through the closing
brace. -/
def parseMembers : Nat → List Char → Option (List (String × Json) × List Char)
  | 0, _ => none
  | fuel + 1, cs =>
    match skipWs cs with
    | '"' :: rest =>
      match parseStringChars rest with
      | none => none
      | some (ks, r1) =>
        match skipWs r1 with
        | ':' :: r2 =>
          match parseValue fuel r2 with
          | none => none
          | some (v, r3) =>
            match skipWs r3 with
            | ',' :: r4 => (parseMembers fuel r4).map (fun p => ((String.mk ks, v) :: p.1, p.2))
            | '}' :: r4 => some ([(String.mk ks, v)], r4)
            | _ => none
        | _ => none
    | _ => none

end

/-- Parse a whole string as one JSON value; trailing content other than
whitespace is a syntax error, as in `encoding/json`. -/
def Json.parse (s : String) : Option Json :=
  match parseValue (s.length + 1) s.toList with
  | none => none
  | some (v, rest) => if (skipWs rest).isEmpty then some v else none

/-- Fold `encoding/json`'s object decoding: each member in order is applied
to the record through `setField`; the first field error aborts. -/
def unmarshalFields (setField : α → String → Json → Except GoError α) :
    α → List (String × Json) → Except GoError α
  | a, [] => .ok a
  | a, (k, v) :: rest =>
    match setField a k v with
    | .error e => .error e
    | .ok a2 => unmarshalFields setField a2 rest

/-- The dsn struct of the source, with Go zero values as defaults. -/
structure dsn where
  Engine : String := ""
  Host : String := ""
  DBName : String := ""
  Username : String := ""
  Password : String := ""
  Port : Int := 0
  SearchPath : String := ""
  DBInstanceIdentifier : String := ""
deriving Repr, DecidableEq

/-- One member applied to a `dsn` record: known keys (the json tags of the
source) demand the matching type, `null` leaves the field unchanged, and
unknown keys are ignored, as `encoding/json` does. -/
def dsnSetField (d : dsn) (key : String) (v : Json) : Except GoError dsn :=
  if key = "engine" then
    match v with
    | .str s => .ok { d with Engine := s }
    | .null => .ok d
    | _ => .error (.jsonTypeErr "dsn.Engine")
  else if key = "host" then
    match v with
    | .str s => .ok { d with Host := s }
    | .null => .ok d
    | _ => .error (.jsonTypeErr "dsn.Host")
  else if key = "dbname" then
    match v with
    | .str s => .ok { d with DBName := s }
    | .null => .ok d
    | _ => .error (.jsonTypeErr "dsn.DBName")
  else if key = "username" then
    match v with
    | .str s => .ok { d with Username := s }
    | .null => .ok d
    | _ => .error (.jsonTypeErr "dsn.Username")
  else if key = "password" then
    match v with
    | .str s => .ok { d with Password := s }
    | .null => .ok d
    | _ => .error (.jsonTypeErr "dsn.Password")
  else if key = "port" then
    match v with
    | .num n => .ok { d with Port := n }
    | .null => .ok d
    | _ => .error (.jsonTypeErr "dsn.Port")
  else if key = "search_path" then
    match v with
    | .str s => .ok { d with SearchPath := s }
    | .null => .ok d
    | _ => .error (.jsonTypeErr "dsn.SearchPath")
  else if key = "dbInstanceIdentifier" then
    match v with
    | .str s => .ok { d with DBInstanceIdentifier := s }
    | .null => .ok d
    | _ => .error (.jsonTypeErr "dsn.DBInstanceIdentifier")
  else .ok d

/-- `json.Unmarshal([]byte(s), &d)` for `d : dsn`: a syntax error when `s`
is not JSON, a type error when the top value is neither an object nor
`null`, otherwise the fold over the object's members. -/
def jsonUnmarshalDsn (s : String) : Except GoError dsn :=
  match Json.parse s with
  | none => .error .jsonSyntaxErr
  | some .null => .ok {}
  | some (.obj fields) => unmarshalFields dsnSetField {} fields
  | some _ => .error (.jsonTypeErr "dsn")

/-- The Credential struct of the source. -/
structure Credential where
  Host : String := ""
  Port : Int := 0
  Key : String := ""
  Username : String := ""
  Password : String := ""
  DBName : String := ""
deriving Repr, DecidableEq

/-- One member applied to a `Credential` record (json tags host, port, key,
username, password, dbname). -/
def credSetField (c : Credential) (key : String) (v : Json) : Except GoError Credential :=
  if key = "host" then
    match v with
    | .str s => .ok { c with Host := s }
    | .null => .ok c
    | _ => .error (.jsonTypeErr "Credential.Host")
  else if key = "port" then
    match v with
    | .num n => .ok { c with Port := n }
    | .null => .ok c
    | _ => .error (.jsonTypeErr "Credential.Port")
  else if key = "key" then
    match v with
    | .str s => .ok { c with Key := s }
    | .null => .ok c
    | _ => .error (.jsonTypeErr "Credential.Key")
  else if key = "username" then
    match v with
    | .str s => .ok { c with Username := s }
    | .null => .ok c
    | _ => .error (.jsonTypeErr "Credential.Username")
  else if key = "password" then
    match v with
    | .str s => .ok { c with Password := s }
    | .null => .ok c
    | _ => .error (.jsonTypeErr "Credential.Password")
  else if key = "dbname" then
    match v with
    | .str s => .ok { c with DBName := s }
    | .null => .ok c
    | _ => .error (.jsonTypeErr "Credential.DBName")
  else .ok c

/-- `json.Unmarshal([]byte(s), &c)` for `c : Credential`. -/
def jsonUnmarshalCredential (s : String) : Except GoError Credential :=
  match Json.parse s with
  | none => .error .jsonSyntaxErr
  | some .null => .ok {}
  | some (.obj fields) => unmarshalFields credSetField {} fields
  | some _ => .error (.jsonTypeErr "Credential")

/-- The APICredential struct of the source. -/
structure APICredential where
  BaseURL : String := ""
  APIKey : String := ""
  APISecret : String := ""
deriving Repr, DecidableEq

/-- One member applied to an `APICredential` record (json tags baseURL,
key, secret). -/
def apiCredSetField (c : APICredential) (key : String) (v : Json) :
    Except GoError APICredential :=
  if key = "baseURL" then
    match v with
    | .str s => .ok { c with BaseURL := s }
    | .null => .ok c
    | _ => .error (.jsonTypeErr "APICredential.BaseURL")
  else if key = "key" then
    match v with
    | .str s => .ok { c with APIKey := s }
    | .null => .ok c
    | _ => .error (.jsonTypeErr "APICredential.APIKey")
  else if key = "secret" then
    match v with
    | .str s => .ok { c with APISecret := s }
    | .null => .ok c
    | _ => .error (.jsonTypeErr "APICredential.APISecret")
  else .ok c

/-- `json.Unmarshal([]byte(s), &c)` for `c : APICredential`. -/
def jsonUnmarshalAPICredential (s : String) : Except GoError APICredential :=
  match Json.parse s with
  | none => .error .jsonSyntaxErr
  | some .null => .ok {}
  | some (.obj fields) => unmarshalFields apiCredSetField {} fields
  | some _ => .error (.jsonTypeErr "APICredential")

/-- The strings.Builder loop of GetPostgresDSNSecret: each of the five
participating fields appends `key=value ` when non-empty. -/
def buildDSN (d : dsn) : String :=
  let s := ""
  let s := if d.Host ≠ "" then s ++ "host=" ++ d.Host ++ " " else s
  let s := if d.DBName ≠ "" then s ++ "dbname=" ++ d.DBName ++ " " else s
  let s := if d.Username ≠ "" then s ++ "user=" ++ d.Username ++ " " else s
  let s := if d.Password ≠ "" then s ++ "password=" ++ d.Password ++ " " else s
  let s := if d.SearchPath ≠ "" then s ++ "search_path=" ++ d.SearchPath ++ " " else s
  s

/-- GetCredentialSecret from the source: fetch, wrap a fetch error, decode,
wrap a decode error; the returned `Option Credential` models the `*Credential`
pointer, allocated before any of this happens. -/
def GetCredentialSecret (sessProvided : Bool) (env : Env) :
    Option Credential × Option GoError :=
  match GetStringSecret sessProvided env with
  | (_, some e) =>
    (some {}, some (.wrapped "Couldn't build credential. Failed to retrieve secret." e))
  | (secret, none) =>
    match jsonUnmarshalCredential secret with
    | .error e =>
      (some {}, some (.wrapped "Couldn't build credential. Failed to decode JSON." e))
    | .ok c => (some c, none)

/-- GetAPICredentialSecret from the source, same shape as
GetCredentialSecret. -/
def GetAPICredentialSecret (sessProvided : Bool) (env : Env) :
    Option APICredential × Option GoError :=
  match GetStringSecret sessProvided env with
  | (_, some e) =>
    (some {}, some (.wrapped "Couldn't build credential. Failed to retrieve secret." e))
  | (secret, none) =>
    match jsonUnmarshalAPICredential secret with
    | .error e =>
      (some {}, some (.wrapped "Couldn't build credential. Failed to decode JSON." e))
    | .ok c => (some c, none)

/-- GetPostgresDSNSecret from the source: fetch, wrap a fetch error,
pass the string through when it already contains `host=` and `dbname=`,
otherwise unmarshal it (a failure returns the original string alongside
the JSON error) and build the DSN. -/
def GetPostgresDSNSecret (sessProvided : Bool) (env : Env) : String × Option GoError :=
  match GetStringSecret sessProvided env with
  | (_, some e) => ("", some (.wrapped "Couldn't build DSN. Failed to retrieve secret" e))
  | (str, none) =>
    if dsnPassThrough str then (str, none)
    else
      match jsonUnmarshalDsn str with
      | .error e => (str, some e)
      | .ok d => (buildDSN d, none)

/-- One `key=value ` token of the spec's DSN construction: an empty value
contributes nothing. -/
def specToken (keyEq value : String) : String :=
  if value = "" then "" else keyEq ++ value ++ " "

/-- The spec's DSN output, written from its words (section 4.3 step 4):
append, in the fixed order host, dbname, user, password, search_path, a
`key=value ` token (value unquoted, trailing space included) for each field
whose value is non-empty, omitting empty fields entirely; Engine, Port and
DBInstanceIdentifier take no part. -/
def specFormatDSN (d : dsn) : String :=
  specToken "host=" d.Host ++ specToken "dbname=" d.DBName ++
    specToken "user=" d.Username ++ specToken "password=" d.Password ++
      specToken "search_path=" d.SearchPath

/-- The string value of field `k` in a decoded JSON object, `dflt` when the
field is absent or not a string. -/
def lookupStrD (k : String) (fields : List (String × Json)) (dflt : String) : String :=
  match fields.lookup k with
  | some (.str v) => v
  | _ => dflt

/-- The integer value of field `k` in a decoded JSON object, `dflt` when
the field is absent or not a number. -/
def lookupIntD (k : String) (fields : List (String × Json)) (dflt : Int) : Int :=
  match fields.lookup k with
  | some (.num n) => n
  | _ => dflt

/-- Does a JSON value fit field `k` of `Credential`? Strings for the five
string fields, integers for port, `null` anywhere, anything under an
unknown key. -/
def credFieldOK (k : String) (v : Json) : Bool :=
  if k == "host" || k == "key" || k == "username" || k == "password" || k == "dbname" then
    match v with
    | .str _ => true
    | .null => true
    | _ => false
  else if k == "port" then
    match v with
    | .num _ => true
    | .null => true
    | _ => false
  else true

theorem lookup_none_of_not_mem_keys {β : Type} {k : String} {l : List (String × β)}
    (h : k ∉ l.map Prod.fst) : l.lookup k = none := by
  induction l with
  | nil => rfl
  | cons p t ih =>
    rcases p with ⟨k2, v⟩
    simp only [List.map_cons, List.mem_cons, not_or] at h
    have hb : (k == k2) = false := beq_eq_false_iff_ne.mpr h.1
    simp [List.lookup, hb, ih h.2]

theorem buildDSN_eq_specFormatDSN (d : dsn) : buildDSN d = specFormatDSN d := by
  have hdb : ∀ x : String, " " ++ ("dbname=" ++ x) = " dbname=" ++ x :=
    fun x => (String.append_assoc " " "dbname=" x).symm.trans rfl
  have hus : ∀ x : String, " " ++ ("user=" ++ x) = " user=" ++ x :=
    fun x => (String.append_assoc " " "user=" x).symm.trans rfl
  have hpw : ∀ x : String, " " ++ ("password=" ++ x) = " password=" ++ x :=
    fun x => (String.append_assoc " " "password=" x).symm.trans rfl
  have hsp : ∀ x : String, " " ++ ("search_path=" ++ x) = " search_path=" ++ x :=
    fun x => (String.append_assoc " " "search_path=" x).symm.trans rfl
  unfold buildDSN specFormatDSN specToken
  by_cases h1 : d.Host = "" <;> by_cases h2 : d.DBName = "" <;>
    by_cases h3 : d.Username = "" <;> by_cases h4 : d.Password = "" <;>
      by_cases h5 : d.SearchPath = "" <;>
        simp [h1, h2, h3, h4, h5, String.append_assoc, String.empty_append,
          hdb, hus, hpw, hsp]

theorem firstIndexFrom_nonneg_iff (sub : List Char) :
    ∀ (l : List Char) (i : Nat), 0 ≤ firstIndexFrom l sub i ↔ sub <:+: l := by
  intro l
  induction l with
  | nil =>
    intro i
    by_cases h : sub.isPrefixOf ([] : List Char) = true
    · have hs : sub = [] := List.prefix_nil.mp (List.isPrefixOf_iff_prefix.mp h)
      subst hs
      simp [firstIndexFrom, Int.natCast_nonneg]
    · have hs : ¬sub <:+: ([] : List Char) := by
        intro hinf
        have he : sub = [] := List.infix_nil.mp hinf
        subst he
        exact h rfl
      simp only [firstIndexFrom, if_neg h]
      constructor
      · intro h0; exact absurd h0 (by decide)
      · intro h0; exact absurd h0 hs
  | cons c t ih =>
    intro i
    by_cases h : sub.isPrefixOf (c :: t) = true
    · have hinf : sub <:+: c :: t := (List.isPrefixOf_iff_prefix.mp h).isInfix
      simp [firstIndexFrom, h, hinf, Int.natCast_nonneg]
    · have hnp : ¬sub <+: c :: t := fun hp => h (List.isPrefixOf_iff_prefix.mpr hp)
      simp only [firstIndexFrom, if_neg h]
      rw [ih (i + 1), List.infix_cons_iff]
      simp [hnp]

theorem stringsIndex_nonneg_iff (s sub : String) :
    stringsIndex s sub ≥ 0 ↔ sub.toList <:+: s.toList := by
  rw [ge_iff_le, stringsIndex]
  exact firstIndexFrom_nonneg_iff sub.toList s.toList 0

theorem dsnPassThrough_of_infix {s : String}
    (h1 : "host=".toList <:+: s.toList) (h2 : "dbname=".toList <:+: s.toList) :
    dsnPassThrough s = true := by
  rw [dsnPassThrough, Bool.and_eq_true, decide_eq_true_iff, decide_eq_true_iff]
  exact ⟨(stringsIndex_nonneg_iff s "host=").mpr h1,
    (stringsIndex_nonneg_iff s "dbname=").mpr h2⟩

/-- C1: a fetched secret string that contains both literal substrings
`host=` and `dbname=` is returned by GetPostgresDSNSecret unmodified and
with no error: the pass-through check fires and no JSON decoding is ever
reached, so the DSN formatting acts as the identity on such strings. -/
theorem getPostgresDSNSecret_passthrough_id (sp : Bool) (env : Env) (s : String)
    (hfetch : GetStringSecret sp env = (s, none))
    (h1 : "host=".toList <:+: s.toList)
    (h2 : "dbname=".toList <:+: s.toList) :
    GetPostgresDSNSecret sp env = (s, none) := by
  simp [GetPostgresDSNSecret, hfetch, dsnPassThrough_of_infix h1 h2]

/-- Witness for C1 at the concrete fetched string "host=h dbname=d". -/
theorem getPostgresDSNSecret_passthrough_id_witness :
    GetPostgresDSNSecret true ⟨.ok (), .ok (some "host=h dbname=d")⟩ =
      ("host=h dbname=d", none) :=
  getPostgresDSNSecret_passthrough_id true ⟨.ok (), .ok (some "host=h dbname=d")⟩
    "host=h dbname=d" rfl (by decide) (by decide)

/-- C2: a fetched payload that fails the pass-through check and unmarshals
into the dsn record produces exactly the spec's DSN string: in the fixed
order host, dbname, user, password, search_path, one `key=value ` token
(with trailing space) per non-empty field, empty fields omitted entirely,
and Engine, Port and DBInstanceIdentifier never emitted. -/
theorem getPostgresDSNSecret_meets_spec (sp : Bool) (env : Env) (s : String) (d : dsn)
    (hfetch : GetStringSecret sp env = (s, none))
    (hpass : dsnPassThrough s = false)
    (hjson : jsonUnmarshalDsn s = .ok d) :
    GetPostgresDSNSecret sp env = (specFormatDSN d, none) := by
  simp [GetPostgresDSNSecret, hfetch, hpass, hjson, buildDSN_eq_specFormatDSN]

/-- Witness for C2 at the spec's own example payload with only dbname. -/
theorem getPostgresDSNSecret_meets_spec_witness :
    GetPostgresDSNSecret true ⟨.ok (), .ok (some "\x7b\"dbname\":\"app\"\x7d")⟩ =
      (specFormatDSN { DBName := "app" }, none) :=
  getPostgresDSNSecret_meets_spec true ⟨.ok (), .ok (some "\x7b\"dbname\":\"app\"\x7d")⟩
    "\x7b\"dbname\":\"app\"\x7d" { DBName := "app" } rfl rfl rfl

/-- C3: on the payload with host db1, dbname app, username u, password p
and search_path public, GetPostgresDSNSecret returns exactly
"host=db1 dbname=app user=u password=p search_path=public " (fixed field
order, trailing space) and no error. -/
theorem getPostgresDSNSecret_example_dsn :
    GetPostgresDSNSecret true
        ⟨.ok (), .ok (some "\x7b\"host\":\"db1\",\"dbname\":\"app\",\"username\":\"u\",\"password\":\"p\",\"search_path\":\"public\"\x7d")⟩ =
      ("host=db1 dbname=app user=u password=p search_path=public ", none) := rfl

/-- C6: whenever the underlying fetch fails, each decoder short-circuits:
it returns the fetch error wrapped with its retrieval-context message
(distinct from the decode-context message), without any JSON decoding. -/
theorem decoders_short_circuit_on_fetch_error (sp : Bool) (env : Env) (e : GoError)
    (hfetch : (GetStringSecret sp env).2 = some e) :
    GetCredentialSecret sp env =
        (some {}, some (.wrapped "Couldn't build credential. Failed to retrieve secret." e)) ∧
      GetAPICredentialSecret sp env =
        (some {}, some (.wrapped "Couldn't build credential. Failed to retrieve secret." e)) ∧
      GetPostgresDSNSecret sp env =
        ("", some (.wrapped "Couldn't build DSN. Failed to retrieve secret" e)) := by
  rcases hr : GetStringSecret sp env with ⟨v, err⟩
  rw [hr] at hfetch
  simp only at hfetch
  subst hfetch
  refine ⟨?_, ?_, ?_⟩ <;>
    simp [GetCredentialSecret, GetAPICredentialSecret, GetPostgresDSNSecret, hr]

/-- Witness for C6: a backend error of unrecognized type propagates,
wrapped twice, through GetCredentialSecret. -/
theorem decoders_short_circuit_on_fetch_error_witness :
    GetCredentialSecret true ⟨.ok (), .error (.plain "boom")⟩ =
        (some {}, some (.wrapped "Couldn't build credential. Failed to retrieve secret."
          (.wrapped "Fasiled to get secret from AWS Secrets Manager: Unknown error description"
            (.plain "boom")))) ∧
      GetAPICredentialSecret true ⟨.ok (), .error (.plain "boom")⟩ =
        (some {}, some (.wrapped "Couldn't build credential. Failed to retrieve secret."
          (.wrapped "Fasiled to get secret from AWS Secrets Manager: Unknown error description"
            (.plain "boom")))) ∧
      GetPostgresDSNSecret true ⟨.ok (), .error (.plain "boom")⟩ =
        ("", some (.wrapped "Couldn't build DSN. Failed to retrieve secret"
          (.wrapped "Fasiled to get secret from AWS Secrets Manager: Unknown error description"
            (.plain "boom")))) :=
  decoders_short_circuit_on_fetch_error true ⟨.ok (), .error (.plain "boom")⟩
    (.wrapped "Fasiled to get secret from AWS Secrets Manager: Unknown error description"
      (.plain "boom")) rfl

/-- C8: GetCredentialSecret and GetAPICredentialSecret return a non-nil
record pointer on every path: fetch failure, decode failure and success. -/
theorem credential_pointers_nonnil (sp : Bool) (env : Env) :
    (GetCredentialSecret sp env).1.isSome = true ∧
      (GetAPICredentialSecret sp env).1.isSome = true := by
  constructor
  · rcases hr : GetStringSecret sp env with ⟨v, err⟩
    cases err with
    | some e => simp [GetCredentialSecret, hr]
    | none =>
      cases hu : jsonUnmarshalCredential v with
      | error e => simp [GetCredentialSecret, hr, hu]
      | ok c => simp [GetCredentialSecret, hr, hu]
  · rcases hr : GetStringSecret sp env with ⟨v, err⟩
    cases err with
    | some e => simp [GetAPICredentialSecret, hr]
    | none =>
      cases hu : jsonUnmarshalAPICredential v with
      | error e => simp [GetAPICredentialSecret, hr, hu]
      | ok c => simp [GetAPICredentialSecret, hr, hu]

/-- C9: whenever GetStringSecret returns an error (failed default-session
construction, a backend error of either kind, or a non-string secret), the
returned secret value is the empty string. -/
theorem getStringSecret_error_implies_empty (sp : Bool) (env : Env)
    (h : (GetStringSecret sp env).2.isSome = true) :
    (GetStringSecret sp env).1 = "" := by
  rcases env with ⟨ns, gs⟩
  cases sp with
  | false =>
    cases ns with
    | error e => simp [GetStringSecret]
    | ok u =>
      cases gs with
      | error e2 => cases e2 <;> simp [GetStringSecret]
      | ok os =>
        cases os with
        | none => simp [GetStringSecret]
        | some s => simp [GetStringSecret] at h
  | true =>
    cases gs with
    | error e2 => cases e2 <;> simp [GetStringSecret]
    | ok os =>
      cases os with
      | none => simp [GetStringSecret]
      | some s => simp [GetStringSecret] at h

/-- Witness for C9 at a binary (non-string) secret. -/
theorem getStringSecret_error_implies_empty_witness :
    (GetStringSecret true ⟨.ok (), .ok none⟩).2.isSome = true ∧
      (GetStringSecret true ⟨.ok (), .ok none⟩).1 = "" :=
  ⟨rfl, getStringSecret_error_implies_empty true ⟨.ok (), .ok none⟩ rfl⟩

/-- C5: a successfully fetched payload that is not valid JSON makes every
decoder return a JSON decode error wrapped with the decode-context message;
GetPostgresDSNSecret (whose parse runs when the pass-through check fails)
returns the original unparsed string alongside the JSON error. -/
theorem decoders_malformed_json (sp : Bool) (env : Env) (s : String)
    (hfetch : GetStringSecret sp env = (s, none))
    (hbad : Json.parse s = none) :
    GetCredentialSecret sp env =
        (some {}, some (.wrapped "Couldn't build credential. Failed to decode JSON."
          .jsonSyntaxErr)) ∧
      GetAPICredentialSecret sp env =
        (some {}, some (.wrapped "Couldn't build credential. Failed to decode JSON."
          .jsonSyntaxErr)) ∧
      (dsnPassThrough s = false →
        GetPostgresDSNSecret sp env = (s, some .jsonSyntaxErr)) := by
  have hc : jsonUnmarshalCredential s = .error .jsonSyntaxErr := by
    rw [jsonUnmarshalCredential, hbad]
  have ha : jsonUnmarshalAPICredential s = .error .jsonSyntaxErr := by
    rw [jsonUnmarshalAPICredential, hbad]
  have hd : jsonUnmarshalDsn s = .error .jsonSyntaxErr := by
    rw [jsonUnmarshalDsn, hbad]
  refine ⟨by simp [GetCredentialSecret, hfetch, hc],
    by simp [GetAPICredentialSecret, hfetch, ha],
    fun hp => by simp [GetPostgresDSNSecret, hfetch, hp, hd]⟩

/-- Witness for C5 at the malformed payload "notjson". -/
theorem decoders_malformed_json_witness :
    GetCredentialSecret true ⟨.ok (), .ok (some "notjson")⟩ =
        (some {}, some (.wrapped "Couldn't build credential. Failed to decode JSON."
          .jsonSyntaxErr)) ∧
      GetAPICredentialSecret true ⟨.ok (), .ok (some "notjson")⟩ =
        (some {}, some (.wrapped "Couldn't build credential. Failed to decode JSON."
          .jsonSyntaxErr)) ∧
      (dsnPassThrough "notjson" = false →
        GetPostgresDSNSecret true ⟨.ok (), .ok (some "notjson")⟩ =
          ("notjson", some .jsonSyntaxErr)) :=
  decoders_malformed_json true ⟨.ok (), .ok (some "notjson")⟩ "notjson" rfl rfl

/-- C7: when the backend call itself succeeds (the session exists) but the
secret has no string value, GetStringSecret returns the non-string-secret
error and the empty string, and each decoder propagates that error wrapped
with its retrieval-context message, so no JSON decode is ever attempted. -/
theorem nonstring_secret_always_error (sp : Bool) (env : Env)
    (hsess : sp = true ∨ env.newSessionResult = .ok ())
    (hbin : env.getSecretValueResult = .ok none) :
    GetStringSecret sp env = ("", some (.plain "Secret is not a string")) ∧
      (GetCredentialSecret sp env).2 =
        some (.wrapped "Couldn't build credential. Failed to retrieve secret."
          (.plain "Secret is not a string")) ∧
      (GetAPICredentialSecret sp env).2 =
        some (.wrapped "Couldn't build credential. Failed to retrieve secret."
          (.plain "Secret is not a string")) ∧
      (GetPostgresDSNSecret sp env).2 =
        some (.wrapped "Couldn't build DSN. Failed to retrieve secret"
          (.plain "Secret is not a string")) := by
  have hs : GetStringSecret sp env = ("", some (.plain "Secret is not a string")) := by
    rcases hsess with h | h
    · subst h
      simp [GetStringSecret, hbin]
    · cases sp with
      | false => simp [GetStringSecret, h, hbin]
      | true => simp [GetStringSecret, hbin]
  exact ⟨hs, by simp [GetCredentialSecret, hs], by simp [GetAPICredentialSecret, hs],
    by simp [GetPostgresDSNSecret, hs]⟩

/-- Witness for C7 with a provided session and a binary secret. -/
theorem nonstring_secret_always_error_witness :
    GetStringSecret true ⟨.ok (), .ok none⟩ =
        ("", some (.plain "Secret is not a string")) ∧
      (GetCredentialSecret true ⟨.ok (), .ok none⟩).2 =
        some (.wrapped "Couldn't build credential. Failed to retrieve secret."
          (.plain "Secret is not a string")) ∧
      (GetAPICredentialSecret true ⟨.ok (), .ok none⟩).2 =
        some (.wrapped "Couldn't build credential. Failed to retrieve secret."
          (.plain "Secret is not a string")) ∧
      (GetPostgresDSNSecret true ⟨.ok (), .ok none⟩).2 =
        some (.wrapped "Couldn't build DSN. Failed to retrieve secret"
          (.plain "Secret is not a string")) :=
  nonstring_secret_always_error true ⟨.ok (), .ok none⟩ (Or.inl rfl) rfl

/-- C10 counterexample: the payload made of an engine field whose value is
"host= dbname=" is valid JSON in which host, dbname, username, password and
search_path are all absent, yet GetPostgresDSNSecret returns the whole
payload unchanged, not the empty string: the pass-through substring check
fires inside the engine value before any JSON parsing. -/
theorem getPostgresDSNSecret_empty_fields_cex :
    jsonUnmarshalDsn "\x7b\"engine\":\"host= dbname=\"\x7d" =
        .ok { Engine := "host= dbname=" } ∧
      GetPostgresDSNSecret true
          ⟨.ok (), .ok (some "\x7b\"engine\":\"host= dbname=\"\x7d")⟩ =
        ("\x7b\"engine\":\"host= dbname=\"\x7d", none) ∧
      ("\x7b\"engine\":\"host= dbname=\"\x7d" : String) ≠ "" :=
  ⟨rfl, rfl, by decide⟩

/-- C10 amended: for every fetched payload that is valid JSON, does not
contain both literal substrings `host=` and `dbname=`, and whose host,
dbname, username, password and search_path fields are all absent or empty,
GetPostgresDSNSecret returns the empty string with no error. -/
theorem getPostgresDSNSecret_empty_fields_amended (sp : Bool) (env : Env)
    (s : String) (d : dsn)
    (hfetch : GetStringSecret sp env = (s, none))
    (hpass : dsnPassThrough s = false)
    (hjson : jsonUnmarshalDsn s = .ok d)
    (h1 : d.Host = "") (h2 : d.DBName = "") (h3 : d.Username = "")
    (h4 : d.Password = "") (h5 : d.SearchPath = "") :
    GetPostgresDSNSecret sp env = ("", none) := by
  simp [GetPostgresDSNSecret, hfetch, hpass, hjson, buildDSN, h1, h2, h3, h4, h5]

/-- Witness for the amended C10 at the payload holding only an engine and a
port. -/
theorem getPostgresDSNSecret_empty_fields_amended_witness :
    GetPostgresDSNSecret true
        ⟨.ok (), .ok (some "\x7b\"engine\":\"postgres\",\"port\":5432\x7d")⟩ =
      ("", none) :=
  getPostgresDSNSecret_empty_fields_amended true
    ⟨.ok (), .ok (some "\x7b\"engine\":\"postgres\",\"port\":5432\x7d")⟩
    "\x7b\"engine\":\"postgres\",\"port\":5432\x7d"
    { Engine := "postgres", Port := 5432 } rfl rfl rfl rfl rfl rfl rfl rfl

theorem unmarshalFields_cred :
    ∀ (fields : List (String × Json)) (c : Credential),
      fields.all (fun kv => credFieldOK kv.1 kv.2) = true →
      (fields.map Prod.fst).Nodup →
      unmarshalFields credSetField c fields = .ok
        { Host := lookupStrD "host" fields c.Host,
          Port := lookupIntD "port" fields c.Port,
          Key := lookupStrD "key" fields c.Key,
          Username := lookupStrD "username" fields c.Username,
          Password := lookupStrD "password" fields c.Password,
          DBName := lookupStrD "dbname" fields c.DBName }
  | [], c, _, _ => rfl
  | (k, v) :: rest, c, hall, hnd => by
    simp only [List.all_cons, Bool.and_eq_true] at hall
    simp only [List.map_cons, List.nodup_cons] at hnd
    obtain ⟨hok, hrest⟩ := hall
    obtain ⟨hkn, hnd'⟩ := hnd
    by_cases hk1 : k = "host"
    · subst hk1
      cases v with
      | str s =>
        rw [show unmarshalFields credSetField c (("host", Json.str s) :: rest) =
            unmarshalFields credSetField { c with Host := s } rest from rfl,
          unmarshalFields_cred rest { c with Host := s } hrest hnd']
        simp [lookupStrD, lookupIntD, List.lookup, lookup_none_of_not_mem_keys hkn]
      | null =>
        rw [show unmarshalFields credSetField c (("host", Json.null) :: rest) =
            unmarshalFields credSetField c rest from rfl,
          unmarshalFields_cred rest c hrest hnd']
        simp [lookupStrD, lookupIntD, List.lookup, lookup_none_of_not_mem_keys hkn]
      | bool b => rw [credFieldOK.eq_def] at hok; simp at hok
      | num n => rw [credFieldOK.eq_def] at hok; simp at hok
      | arr es => rw [credFieldOK.eq_def] at hok; simp at hok
      | obj fs => rw [credFieldOK.eq_def] at hok; simp at hok
    · by_cases hk2 : k = "port"
      · subst hk2
        cases v with
        | num n =>
          rw [show unmarshalFields credSetField c (("port", Json.num n) :: rest) =
              unmarshalFields credSetField { c with Port := n } rest from rfl,
            unmarshalFields_cred rest { c with Port := n } hrest hnd']
          simp [lookupStrD, lookupIntD, List.lookup, lookup_none_of_not_mem_keys hkn]
        | null =>
          rw [show unmarshalFields credSetField c (("port", Json.null) :: rest) =
              unmarshalFields credSetField c rest from rfl,
            unmarshalFields_cred rest c hrest hnd']
          simp [lookupStrD, lookupIntD, List.lookup, lookup_none_of_not_mem_keys hkn]
        | str s => rw [credFieldOK.eq_def] at hok; simp at hok
        | bool b => rw [credFieldOK.eq_def] at hok; simp at hok
        | arr es => rw [credFieldOK.eq_def] at hok; simp at hok
        | obj fs => rw [credFieldOK.eq_def] at hok; simp at hok
      · by_cases hk3 : k = "key"
        · subst hk3
          cases v with
          | str s =>
            rw [show unmarshalFields credSetField c (("key", Json.str s) :: rest) =
                unmarshalFields credSetField { c with Key := s } rest from rfl,
              unmarshalFields_cred rest { c with Key := s } hrest hnd']
            simp [lookupStrD, lookupIntD, List.lookup, lookup_none_of_not_mem_keys hkn]
          | null =>
            rw [show unmarshalFields credSetField c (("key", Json.null) :: rest) =
                unmarshalFields credSetField c rest from rfl,
              unmarshalFields_cred rest c hrest hnd']
            simp [lookupStrD, lookupIntD, List.lookup, lookup_none_of_not_mem_keys hkn]
          | bool b => rw [credFieldOK.eq_def] at hok; simp at hok
          | num n => rw [credFieldOK.eq_def] at hok; simp at hok
          | arr es => rw [credFieldOK.eq_def] at hok; simp at hok
          | obj fs => rw [credFieldOK.eq_def] at hok; simp at hok
        · by_cases hk4 : k = "username"
          · subst hk4
            cases v with
            | str s =>
              rw [show unmarshalFields credSetField c
                    (("username", Json.str s) :: rest) =
                  unmarshalFields credSetField { c with Username := s } rest from rfl,
                unmarshalFields_cred rest { c with Username := s } hrest hnd']
              simp [lookupStrD, lookupIntD, List.lookup, lookup_none_of_not_mem_keys hkn]
            | null =>
              rw [show unmarshalFields credSetField c
                    (("username", Json.null) :: rest) =
                  unmarshalFields credSetField c rest from rfl,
                unmarshalFields_cred rest c hrest hnd']
              simp [lookupStrD, lookupIntD, List.lookup, lookup_none_of_not_mem_keys hkn]
            | bool b => rw [credFieldOK.eq_def] at hok; simp at hok
            | num n => rw [credFieldOK.eq_def] at hok; simp at hok
            | arr es => rw [credFieldOK.eq_def] at hok; simp at hok
            | obj fs => rw [credFieldOK.eq_def] at hok; simp at hok
          · by_cases hk5 : k = "password"
            · subst hk5
              cases v with
              | str s =>
                rw [show unmarshalFields credSetField c
                      (("password", Json.str s) :: rest) =
                    unmarshalFields credSetField { c with Password := s } rest from rfl,
                  unmarshalFields_cred rest { c with Password := s } hrest hnd']
                simp [lookupStrD, lookupIntD, List.lookup,
                  lookup_none_of_not_mem_keys hkn]
              | null =>
                rw [show unmarshalFields credSetField c
                      (("password", Json.null) :: rest) =
                    unmarshalFields credSetField c rest from rfl,
                  unmarshalFields_cred rest c hrest hnd']
                simp [lookupStrD, lookupIntD, List.lookup,
                  lookup_none_of_not_mem_keys hkn]
              | bool b => rw [credFieldOK.eq_def] at hok; simp at hok
              | num n => rw [credFieldOK.eq_def] at hok; simp at hok
              | arr es => rw [credFieldOK.eq_def] at hok; simp at hok
              | obj fs => rw [credFieldOK.eq_def] at hok; simp at hok
            · by_cases hk6 : k = "dbname"
              · subst hk6
                cases v with
                | str s =>
                  rw [show unmarshalFields credSetField c
                        (("dbname", Json.str s) :: rest) =
                      unmarshalFields credSetField { c with DBName := s } rest from rfl,
                    unmarshalFields_cred rest { c with DBName := s } hrest hnd']
                  simp [lookupStrD, lookupIntD, List.lookup,
                    lookup_none_of_not_mem_keys hkn]
                | null =>
                  rw [show unmarshalFields credSetField c
                        (("dbname", Json.null) :: rest) =
                      unmarshalFields credSetField c rest from rfl,
                    unmarshalFields_cred rest c hrest hnd']
                  simp [lookupStrD, lookupIntD, List.lookup,
                    lookup_none_of_not_mem_keys hkn]
                | bool b => rw [credFieldOK.eq_def] at hok; simp at hok
                | num n => rw [credFieldOK.eq_def] at hok; simp at hok
                | arr es => rw [credFieldOK.eq_def] at hok; simp at hok
                | obj fs => rw [credFieldOK.eq_def] at hok; simp at hok
              · have hb1 : ("host" == k) = false := beq_eq_false_iff_ne.mpr (Ne.symm hk1)
                have hb2 : ("port" == k) = false := beq_eq_false_iff_ne.mpr (Ne.symm hk2)
                have hb3 : ("key" == k) = false := beq_eq_false_iff_ne.mpr (Ne.symm hk3)
                have hb4 : ("username" == k) = false :=
                  beq_eq_false_iff_ne.mpr (Ne.symm hk4)
                have hb5 : ("password" == k) = false :=
                  beq_eq_false_iff_ne.mpr (Ne.symm hk5)
                have hb6 : ("dbname" == k) = false :=
                  beq_eq_false_iff_ne.mpr (Ne.symm hk6)
                have hset : credSetField c k v = .ok c := by
                  rw [credSetField.eq_def]
                  simp [hk1, hk2, hk3, hk4, hk5, hk6]
                have hstep : unmarshalFields credSetField c ((k, v) :: rest) =
                    unmarshalFields credSetField c rest := by
                  rw [unmarshalFields, hset]
                rw [hstep, unmarshalFields_cred rest c hrest hnd']
                simp [lookupStrD, lookupIntD, List.lookup, hb1, hb2, hb3, hb4, hb5, hb6]

/-- C4: a successfully fetched payload that parses as a JSON object
matching the Credential shape (each known key carrying a value of the
field's type or null, keys distinct) decodes with no error; every present
field is reproduced exactly, and every absent field keeps its zero
value, so decoding never fails for missing fields. -/
theorem getCredentialSecret_roundtrip (sp : Bool) (env : Env) (s : String)
    (fields : List (String × Json))
    (hfetch : GetStringSecret sp env = (s, none))
    (hparse : Json.parse s = some (.obj fields))
    (hOK : fields.all (fun kv => credFieldOK kv.1 kv.2) = true)
    (hnd : (fields.map Prod.fst).Nodup) :
    GetCredentialSecret sp env =
      (some { Host := lookupStrD "host" fields "",
              Port := lookupIntD "port" fields 0,
              Key := lookupStrD "key" fields "",
              Username := lookupStrD "username" fields "",
              Password := lookupStrD "password" fields "",
              DBName := lookupStrD "dbname" fields "" }, none) := by
  have hu : jsonUnmarshalCredential s = .ok
      { Host := lookupStrD "host" fields "",
        Port := lookupIntD "port" fields 0,
        Key := lookupStrD "key" fields "",
        Username := lookupStrD "username" fields "",
        Password := lookupStrD "password" fields "",
        DBName := lookupStrD "dbname" fields "" } := by
    rw [jsonUnmarshalCredential, hparse]
    exact unmarshalFields_cred fields {} hOK hnd
  simp [GetCredentialSecret, hfetch, hu]

/-- Witness for C4 at a payload carrying host, port and an unknown extra
field; absent fields come back as zero values. -/
theorem getCredentialSecret_roundtrip_witness :
    GetCredentialSecret true
        ⟨.ok (), .ok (some "\x7b\"host\":\"db1\",\"port\":5432,\"extra\":true\x7d")⟩ =
      (some { Host := "db1", Port := 5432 }, none) :=
  (getCredentialSecret_roundtrip true
    ⟨.ok (), .ok (some "\x7b\"host\":\"db1\",\"port\":5432,\"extra\":true\x7d")⟩
    "\x7b\"host\":\"db1\",\"port\":5432,\"extra\":true\x7d"
    [("host", .str "db1"), ("port", .num 5432), ("extra", .bool true)]
    rfl rfl rfl (by decide)).trans rfl

end AwsSecret
